import Mathlib

/-!
Verification of the instance-derivation engine of the ayon-traypublisher
repository against its natural-language specification.

The Python creators under
`client/ayon_traypublisher/plugins/create/` are shallowly embedded below:
pure helper functions become Lean functions on `List Char` / `String`
values, raising code becomes `Except`, Python `None` becomes `Option` or an
explicit `PyVal.none`, and the stateful instance registry becomes explicit
state passing.  External collaborators (the `re` regex engine applied to
configurable patterns, `float` parsing/printing, the filesystem-dependent
path resolver, the asset-database lookups and the `clique`/`otio`
libraries) are passed in as explicit function parameters or as
already-computed values, exactly at the call boundary where the Python code
invokes them.  The fixed pattern `.*v(\d{2,4}).*` used for version
extraction is embedded concretely, since its backtracking behaviour is part
of the verified logic.
-/

namespace AyonTraypublisher

/-! ### Python string primitives

Character-list implementations of the Python `str` operations used by the
creators.  All are structurally recursive so that concrete witnesses reduce
inside the kernel. -/

/-- Python whitespace test used by `str.strip()` (ASCII subset). -/
def isPySpace (c : Char) : Bool :=
  c = ' ' ∨ c = '\t' ∨ c = '\n' ∨ c = '\r' ∨ c = '\x0b' ∨ c = '\x0c'

/-- Python `str.strip()` on a character list. -/
def stripSpaces (s : List Char) : List Char :=
  ((s.dropWhile isPySpace).reverse.dropWhile isPySpace).reverse

/-- Python `str.strip(chars)` on a character list: remove the given
characters from both ends. -/
def stripCharSet (bad : List Char) (s : List Char) : List Char :=
  ((s.dropWhile (fun c => bad.contains c)).reverse.dropWhile
    (fun c => bad.contains c)).reverse

/-- Python `str.lower()` (ASCII subset, which covers every value the
creators compare). -/
def lowerStr (s : String) : String := String.mk (s.toList.map Char.toLower)

/-- Python `str.capitalize()`: first character uppercased, the rest
lowercased. -/
def pyCapitalize (s : String) : String :=
  match s.toList with
  | [] => ""
  | c :: rest => String.mk (c.toUpper :: rest.map Char.toLower)

/-- Containment of `sub` as a contiguous infix of `s`, i.e. Python
`sub in s` for strings. -/
def isInfixList (sub : List Char) : List Char → Bool
  | [] => sub.isEmpty
  | c :: rest => sub.isPrefixOf (c :: rest) || isInfixList sub rest

/-- Python `sub in s` on strings. -/
def strContains (s sub : String) : Bool := isInfixList sub.toList s.toList

/-- Python `str.endswith` on character lists. -/
def endsWithList (s suffixChars : List Char) : Bool :=
  suffixChars.reverse.isPrefixOf s.reverse

/-- Python `str.endswith` on strings. -/
def strEndsWith (s suffixStr : String) : Bool :=
  endsWithList s.toList suffixStr.toList

/-- Fuel-driven worker for `splitOnList`.  The fuel is an upper bound on the
number of characters still to scan; the separator is assumed non-empty (as
in every configuration the creators accept: Python `str.split` raises on an
empty separator). -/
def splitOnGo (sep : List Char) : Nat → List Char → List Char →
    List (List Char)
  | 0, s, acc => [acc.reverse ++ s]
  | _ + 1, [], acc => [acc.reverse]
  | fuel + 1, c :: rest, acc =>
    if sep.isPrefixOf (c :: rest) then
      acc.reverse :: splitOnGo sep fuel ((c :: rest).drop sep.length) []
    else
      splitOnGo sep fuel rest (c :: acc)

/-- Python `str.split(sep)` for a non-empty separator. -/
def splitOnList (sep s : List Char) : List (List Char) :=
  splitOnGo sep (s.length + 1) s []

/-- Python `str.split(sep)` on strings. -/
def strSplitOn (s sep : String) : List String :=
  (splitOnList sep.toList s.toList).map String.mk

/-- Fuel-driven worker for `replaceAllList` (non-overlapping left-to-right
replacement, as Python `str.replace`). -/
def replaceAllGo (pat rep : List Char) : Nat → List Char → List Char
  | 0, s => s
  | _ + 1, [] => []
  | fuel + 1, c :: rest =>
    if pat ≠ [] ∧ pat.isPrefixOf (c :: rest) then
      rep ++ replaceAllGo pat rep fuel ((c :: rest).drop pat.length)
    else
      c :: replaceAllGo pat rep fuel rest

/-- Python `str.replace(pat, rep)` for a non-empty pattern. -/
def replaceAllList (pat rep s : List Char) : List Char :=
  replaceAllGo pat rep (s.length + 1) s

/-- Python `str.strip()` on strings. -/
def strStrip (s : String) : String := String.mk (stripSpaces s.toList)

/-! ### The fixed version regex

`VERSION_IN_FILE_PATTERN = r".*v(\d{2,4}).*"` is applied through
`re.match`.  The leading greedy `.*` makes the engine pick the rightmost
position `i` with `s[i] = 'v'` followed by at least two digits; the group
then greedily captures up to four digits at that position, and the trailing
`.*` always succeeds. -/

/-- Length of the maximal run of ASCII digits at the front of the list. -/
def digitRun : List Char → Nat
  | [] => 0
  | c :: rest => if c.isDigit then digitRun rest + 1 else 0

/-- Numeric value of a list of ASCII digit characters. -/
def digitsVal (l : List Char) : Nat :=
  l.foldl (fun acc c => acc * 10 + (c.toNat - 48)) 0

/-- Backtracking search of `.*v(\d{2,4})` over a character list: returns
the digits captured at the rightmost admissible `v`, or `none` when the
pattern does not match. -/
def versionScan : List Char → Option (List Char)
  | [] => none
  | c :: rest =>
    match versionScan rest with
    | some ds => some ds
    | none =>
      if c = 'v' ∧ 2 ≤ digitRun rest then
        some (rest.take (min 4 (digitRun rest)))
      else none

/-- Result of `re.match(VERSION_IN_FILE_PATTERN, s)` converted through
`int(match.group(1))`, as the creator consumes it. -/
def versionInFile (s : String) : Option Nat := (versionScan s.toList).map digitsVal

/-! ### C1 — EditorialAdvancedCreator._get_timing_data

The OTIO accessors `range_in_parent()`, `end_time_inclusive()` and
`trimmed_range()` are taken as explicit integer-frame range values (the
OTIO library is an external collaborator; `_restore_otio_source_range` has
already run in the processing path, so `trimmed_range()` is the restored
source range).  `duration()` is the trimmed range's duration. -/

/-- Integer-rate OTIO time range. -/
structure OtioTimeRange where
  start : Int
  duration : Int
  deriving DecidableEq

/-- OTIO `end_time_inclusive()` of an integer-rate range. -/
def OtioTimeRange.endTimeInclusive (r : OtioTimeRange) : Int :=
  r.start + r.duration - 1

/-- Timing dictionary returned by `_get_timing_data`. -/
structure TimingData where
  frameStart : Int
  frameEnd : Int
  clipIn : Int
  clipOut : Int
  clipDuration : Int
  sourceIn : Int
  sourceOut : Int
  deriving DecidableEq

/-- EditorialAdvancedCreator._get_timing_data
(create_editorial_advanced.py:1134-1182).  `if timeline_offset:` is Python
integer truthiness, i.e. the offset is added exactly when non-zero;
a missing workfile start frame is Python `None`. -/
def get_timing_data (range_in_parent trimmed_range : OtioTimeRange)
    (timeline_offset track_start_frame : Int)
    (workfile_start_frame : Option Int) : TimingData :=
  let clip_in := range_in_parent.start + track_start_frame
  let clip_out := range_in_parent.endTimeInclusive + track_start_frame
  let clip_in := if timeline_offset ≠ 0 then clip_in + timeline_offset else clip_in
  let clip_out := if timeline_offset ≠ 0 then clip_out + timeline_offset else clip_out
  let clip_duration := trimmed_range.duration
  let source_in := trimmed_range.start
  let source_out := source_in + clip_duration
  let frame_start :=
    match workfile_start_frame with
    | none => clip_in
    | some w => w
  let frame_end := frame_start + (clip_duration - 1)
  { frameStart := frame_start
    frameEnd := frame_end
    clipIn := clip_in
    clipOut := clip_out
    clipDuration := clip_duration
    sourceIn := source_in
    sourceOut := source_out }

/-! ### C3 — EditorialAdvancedCreator._extract_version_from_files

A prepared representation's `files` value is a plain string whenever the
matched file list had exactly one element
(create_editorial_advanced.py:860-861), and a list otherwise.  Python
iteration over a plain string yields its one-character substrings. -/

/-- Value of a prepared representation's `files` key. -/
inductive PyFiles where
  | str (s : String)
  | list (l : List String)
  deriving DecidableEq

/-- Python iteration over the `files` value. -/
def PyFiles.iter : PyFiles → List String
  | .str s => s.toList.map (fun c => String.mk [c])
  | .list l => l

/-- EditorialAdvancedCreator._extract_version_from_files
(create_editorial_advanced.py:944-966): collect every captured version over
`for file in repre["files"]`, and return the maximum (the Python `set` only
removes duplicates, which cannot change the maximum); `None` when nothing
matched. -/
def extract_version_from_files (representations : List PyFiles) : Option Nat :=
  let all_found_versions :=
    representations.foldr (fun r acc => r.iter.filterMap versionInFile ++ acc) []
  match all_found_versions with
  | [] => none
  | v :: rest => some (rest.foldl max v)

/-! ### CSV ingest — schema & validation layer

Embedding of `_get_row_value_with_validation`
(create_csv_ingest.py:25-89).  Raw CSV cells are strings; a missing key in
the row dictionary is Python `None`.  The external Python builtins — the
`re.match` regex engine applied to configurable patterns, and `float`
parsing/printing — enter as the `PyPrims` parameter; `int(...)` parsing of
strings is embedded concretely. -/

/-- Dynamically-typed Python value flowing through the CSV validation. -/
inductive PyVal where
  | none
  | str (s : String)
  | int (n : Int)
  | float (q : Rat)
  | bool (b : Bool)
  deriving DecidableEq

/-- External Python primitives used by the validation layer: `re.match`
(pattern, string, as truthiness of the match object), `float(...)` parsing
(`none` models ValueError) and `str(...)` on floats. -/
structure PyPrims where
  reMatch : String → String → Bool
  floatParse : String → Option Rat
  floatStr : Rat → String

/-- Python `str(value)` for the values reaching the validation regex. -/
def pyStr (prims : PyPrims) : PyVal → String
  | .none => "None"
  | .str s => s
  | .int n => toString n
  | .float q => prims.floatStr q
  | .bool b => if b then "True" else "False"

/-- Python `int(s)` for strings: optional sign and a non-empty digit run
after stripping whitespace (`none` models ValueError). -/
def pyIntParse (s : String) : Option Int :=
  let t := stripSpaces s.toList
  let signed : Int × List Char :=
    match t with
    | '-' :: rest => (-1, rest)
    | '+' :: rest => (1, rest)
    | _ => (1, t)
  if signed.2 ≠ [] ∧ signed.2.all Char.isDigit then
    some (signed.1 * (digitsVal signed.2 : Int))
  else none

/-- Errors raised while processing one CSV row value: `CreatorError`s carry
their context, `valueError` models the bare Python
ValueError/TypeError of a failed coercion. -/
inductive RowError where
  | columnNotFound (column : String)
  | requiredMissing (column : String)
  | validationFailed (column : String) (value : String)
  | valueError
  deriving DecidableEq

/-- Python `int(value)` over the value domain (`int(None)` raises). -/
def pyIntCoerce : PyVal → Except RowError Int
  | .int n => .ok n
  | .bool b => .ok (if b then 1 else 0)
  | .float q => .ok (if 0 ≤ q then ⌊q⌋ else ⌈q⌉)
  | .str s =>
    match pyIntParse s with
    | some n => .ok n
    | none => .error .valueError
  | .none => .error .valueError

/-- Python `float(value)` over the value domain. -/
def pyFloatCoerce (prims : PyPrims) : PyVal → Except RowError Rat
  | .float q => .ok q
  | .int n => .ok n
  | .bool b => .ok (if b then 1 else 0)
  | .str s =>
    match prims.floatParse s with
    | some q => .ok q
    | none => .error .valueError
  | .none => .error .valueError

/-- Python `column_value in ["true", "True"]`. -/
def pyInTrueTrue : PyVal → Bool
  | .str s => s = "true" ∨ s = "True"
  | _ => false

/-- Python `column_default in (0, '0')`: `==`-membership, which also
accepts `0.0` and `False` (both `== 0`). -/
def pyIsZeroDefault : PyVal → Bool
  | .int n => n = 0
  | .str s => s = "0"
  | .float q => q = 0
  | .bool b => ¬b
  | .none => false

/-- Declared column configuration entry (project settings). -/
structure ColumnConfig where
  name : String
  type : String
  default : PyVal
  required_column : Bool
  validation_pattern : String

/-- Python `row_data.get(column_name)` over the parsed CSV row. -/
def rowGet (row : List (String × String)) (key : String) : Option String :=
  (row.find? (fun kv => kv.1 = key)).map (·.2)

/-- create_csv_ingest._get_row_value_with_validation
(create_csv_ingest.py:25-89): find the first column of that name, enforce
the required flag on an empty cell, substitute the default (with numeric
literal-zero defaults suppressed to `None`), coerce by declared type, and
finally test non-`None` values against the validation regex. -/
def get_row_value_with_validation (prims : PyPrims)
    (columns : List ColumnConfig) (column_name : String)
    (row : List (String × String)) : Except RowError PyVal :=
  match columns.find? (fun c => c.name = column_name) with
  | Option.none => .error (.columnNotFound column_name)
  | some column_data =>
    let column_value : PyVal :=
      match rowGet row column_name with
      | Option.none => .none
      | some s => .str s
    if column_value = .str "" ∧ column_data.required_column then
      .error (.requiredMissing column_name)
    else
      let column_type := column_data.type
      let column_validation := column_data.validation_pattern
      let column_default :=
        if (column_type = "number" ∨ column_type = "decimal") ∧
            pyIsZeroDefault column_data.default then
          PyVal.none
        else column_data.default
      let column_value :=
        if column_value = .str "" then column_default else column_value
      let coerced : Except RowError PyVal :=
        if column_type = "number" ∧ column_value ≠ .none then
          (pyIntCoerce column_value).map .int
        else if column_type = "decimal" ∧ column_value ≠ .none then
          (pyFloatCoerce prims column_value).map .float
        else if column_type = "bool" then
          .ok (.bool (pyInTrueTrue column_value))
        else
          .ok column_value
      match coerced with
      | .error e => .error e
      | .ok v =>
        if v ≠ .none ∧ ¬prims.reMatch column_validation (pyStr prims v) then
          .error (.validationFailed column_name (pyStr prims v))
        else
          .ok v

/-! ### CSV ingest — representation tags (C4)

RepreItem.from_csv_row tag handling (create_csv_ingest.py:153-166).
`repre_tags` is the already-validated Representation Tags cell value —
`None` or a string.  Python truthiness sends `None` and `""` to the
configured default tags. -/

/-- Tag-list derivation exactly as coded: the cell is split only when the
delimiter occurs in it, each piece then stripped and lowercased; a
non-empty cell without the delimiter is appended raw. -/
def tags_from_cell (default_tags : List String) (tags_delimiter : String)
    (repre_tags : Option String) : List String :=
  match repre_tags with
  | Option.none => default_tags
  | some s =>
    if s = "" then default_tags
    else if strContains s tags_delimiter then
      (strSplitOn s tags_delimiter).map (fun t => lowerStr (strStrip t))
    else [s]

/-- Tag list as claim C4 words it (spec wording, for comparison): split
every non-empty cell on the delimiter and strip+lowercase each resulting
tag; an empty cell falls back to the default tags. -/
def tags_from_cell_claimed (default_tags : List String)
    (tags_delimiter : String) (repre_tags : Option String) : List String :=
  match repre_tags with
  | Option.none => default_tags
  | some s =>
    if s = "" then default_tags
    else (strSplitOn s tags_delimiter).map (fun t => lowerStr (strStrip t))

/-! ### CSV ingest — duplicate filepath detection (C2)

Embedding of the tail of `IngestCSV._get_data_from_csv`
(create_csv_ingest.py:607-631) together with
`_create_instances_from_csv_data` (878-) and the storing step of
`_process_csv_file` (376-380).  The function runs after the row parsing and
the folder/task database checks (which also precede any instance
creation); the product items those stages produced are its input.
`IngestCSV._resolve_repre_path` depends on `os.path.exists`, so it enters
as an opaque resolver applied exactly where the Python code applies it
(falsy paths are returned unchanged by its first guard). -/

/-- Representation item fields involved in path resolution (the timing and
colorspace fields ride along unchanged and are omitted). -/
structure CsvRepreItem where
  name : String
  filepath : String
  thumbnail_path : Option String
  tags : List String
  deriving DecidableEq

/-- Product item as grouped from the CSV rows. -/
structure CsvProductItem where
  folder_path : String
  task_name : String
  version : Option Nat
  variant : String
  product_type : String
  repre_items : List CsvRepreItem
  deriving DecidableEq

/-- CreatorError payloads raised by the CSV data pass. -/
inductive CsvError where
  | duplicateFiles (paths : List String)
  deriving DecidableEq

/-- Application of `_resolve_repre_path` to one representation item
(create_csv_ingest.py:610-617): both the filepath and the thumbnail path
are resolved in place. -/
def resolve_repre_item (resolve : String → String) (r : CsvRepreItem) :
    CsvRepreItem :=
  { r with
    filepath := if r.filepath = "" then r.filepath else resolve r.filepath
    thumbnail_path :=
      r.thumbnail_path.map (fun t => if t = "" then t else resolve t) }

/-- Resolved filepaths seen more than once within one product
(create_csv_ingest.py:619-622 accumulates exactly the paths whose second
occurrence is reached). -/
def duplicated_paths (paths : List String) : List String :=
  (paths.filter (fun p => 2 ≤ paths.count p)).dedup

/-- Per-product loop of `_get_data_from_csv` (create_csv_ingest.py:607-631):
resolve every representation path of the product, then raise on any
duplicated resolved filepath before looking at the next product. -/
def resolve_and_check_duplicates (resolve : String → String) :
    List CsvProductItem → Except CsvError (List CsvProductItem)
  | [] => .ok []
  | p :: rest =>
    let p2 := { p with repre_items := p.repre_items.map (resolve_repre_item resolve) }
    let dups := duplicated_paths (p2.repre_items.map (·.filepath))
    if dups ≠ [] then .error (.duplicateFiles dups)
    else (resolve_and_check_duplicates resolve rest).map (fun l => p2 :: l)

/-- Creation instance emitted for one CSV product (naming and
representation preparation details are produced by the abstracted
`build` step below). -/
structure CsvInstance where
  product_type : String
  folder_path : String
  task_name : String
  version : Option Nat
  repre_count : Nat
  deriving DecidableEq

/-- IngestCSV._create_instances_from_csv_data (create_csv_ingest.py:878-):
first run the full data pass (raising on duplicates), and only afterwards
build one instance per product item.  Product-name resolution and
representation preparation are abstracted into `build`; it is applied only
once the data pass succeeded. -/
def create_instances_from_csv_data (resolve : String → String)
    (build : CsvProductItem → CsvInstance)
    (products : List CsvProductItem) : Except CsvError (List CsvInstance) :=
  (resolve_and_check_duplicates resolve products).map (fun items => items.map build)

/-- Instances actually stored by `IngestCSV._process_csv_file`
(create_csv_ingest.py:376-380): each created instance is stored, then the
csv bookkeeping instance; a raised error propagates before any
`_store_new_instance` call, so nothing is stored. -/
def process_csv_file_stored (resolve : String → String)
    (build : CsvProductItem → CsvInstance) (csv_instance : CsvInstance)
    (products : List CsvProductItem) : List CsvInstance :=
  match create_instances_from_csv_data resolve build products with
  | .error _ => []
  | .ok l => l ++ [csv_instance]

/-! ### Editorial advanced — clip validation, instance graph (C6, C7, C8)

Embedding of `_validate_clip_for_processing`, the clip loop of
`_get_clip_instances` (create_editorial_advanced.py:580-645),
`_make_shot_product_instance`, `_set_product_data_to_instance` and both
passes of `_make_product_instance` (769-942).  The content matching against
the media folder (`os.walk` plus `_include_files_for_processing`) is
filesystem work that happens before this loop; its per-clip result — the
`clip_content` mapping of content items — is taken as input.  `re.match`
over the configurable representation patterns enters as an opaque
parameter.  `CreatedInstance` id generation becomes a counter threaded
through `CreateState`. -/

/-- OTIO schema class of a timeline item. -/
inductive OtioSchemaKind where
  | clip
  | gap
  | transition
  deriving DecidableEq

/-- OTIO media reference class. -/
inductive MediaReferenceKind where
  | external
  | generator
  | missingReference
  deriving DecidableEq

/-- Timeline item attributes inspected by the clip loop. -/
structure OtioClip where
  name : Option String
  kind : OtioSchemaKind
  mediaReference : MediaReferenceKind
  deriving DecidableEq

/-- EditorialAdvancedCreator._validate_clip_for_processing
(create_editorial_advanced.py:1200-1226), in source order: no name, gap,
generator media reference, transition. -/
def validate_clip_for_processing (otio_clip : OtioClip) : Bool :=
  if otio_clip.name = Option.none then false
  else if otio_clip.kind = OtioSchemaKind.gap then false
  else if otio_clip.mediaReference = MediaReferenceKind.generator then false
  else if otio_clip.kind = OtioSchemaKind.transition then false
  else true

/-- Representation preset of a product-type preset (project settings). -/
structure RepPreset where
  name : String
  content_type : String
  extensions : List String
  patterns : List String
  tags : List String
  custom_tags : List String

/-- Enabled product-type preset, extended with its product name by
`_get_allowed_product_type_presets`. -/
structure ProductPreset where
  product_type : String
  product_name : String
  versioning_type : String
  locked : Nat
  representations : List RepPreset

/-- Matched content item for one clip, as assembled by
`_include_files_for_processing`. -/
structure ContentItem where
  preset_name : String
  product_name : String
  clip_dir_subpath : String
  type : String
  suffix : String
  files : List String

/-- Prepared representation dictionary built by the first pass of
`_make_product_instance` (create_editorial_advanced.py:863-878; the
absolute staging directory is filesystem data and is omitted). -/
structure PrepRepre where
  name : String
  ext : String
  files : PyFiles
  content_type : String
  repre_preset_name : String
  tags : List String
  custom_tags : List String
  outputName : Option String

/-- Creation instance emitted by the editorial-advanced creator, with the
fields the claims inspect (`parent_instance` is the
`creator_attributes["parent_instance"]` entry). -/
structure EditorialInstance where
  productType : String
  productName : String
  variant : String
  label : String
  instance_id : Nat
  parent_instance_id : Option Nat
  parent_instance : Option String
  add_review_family : Option Bool
  version : Option Nat
  prep_representations : List PrepRepre

/-- Instance registry: the creators append created instances and generate
fresh instance ids. -/
structure CreateState where
  nextId : Nat
  instances : List EditorialInstance

/-- Parenting data dictionary threaded from the shot instance to the
product instances (create_editorial_advanced.py:624-627, 994-999). -/
structure ParentingData where
  instance_label : Option String
  instance_id : Option Nat

/-- Per-clip data of `_get_base_instance_data` that the instance builders
read: the resolved folder path placed in the creator attributes (it renders
every label). -/
structure BaseInstanceData where
  attr_folderPath : String

/-- CONTENT_TYPE_MAPPING (create_editorial_advanced.py:94-110). -/
def content_type_mapping (item_type : String) : List String :=
  if item_type = "other" then ["audio", "geometry", "workfile"]
  else if item_type = "single" then ["video", "image_single"]
  else if item_type = "collection" then ["image_sequence"]
  else if item_type = "thumbnail" then ["thumbnail"]
  else []

/-- EditorialAdvancedCreator._set_product_data_to_instance
(create_editorial_advanced.py:1002-1042) reduced to its computed values:
variant, product name and label (`Optional` arguments model Python `None`,
and emptiness models Python falsiness). -/
def set_product_data (attr_folderPath product_type : String)
    (variant0 product_name0 : Option String) : String × String × String :=
  let variantGiven := (variant0.getD "")
  let nameGiven := (product_name0.getD "")
  let variant :=
    if variantGiven ≠ "" then variantGiven
    else if nameGiven ≠ "" then
      lowerStr ((strSplitOn nameGiven product_type).getLastD nameGiven)
    else "main"
  let product_name :=
    if nameGiven ≠ "" then nameGiven
    else product_type ++ pyCapitalize variant
  let label := attr_folderPath ++ " " ++ product_name
  (variant, product_name, label)

/-- EditorialAdvancedCreator._make_shot_product_instance
(create_editorial_advanced.py:968-1000): create the shot instance through
the shot creator (fresh instance id, stored immediately) and record its
label and id in the parenting data.  The serialized `otioClip` payload is
opaque to the claims and omitted. -/
def make_shot_product_instance (base : BaseInstanceData) (st : CreateState) :
    ParentingData × CreateState :=
  let v := set_product_data base.attr_folderPath "shot" Option.none (some "shotMain")
  let inst : EditorialInstance :=
    { productType := "shot"
      productName := v.2.1
      variant := v.1
      label := v.2.2
      instance_id := st.nextId
      parent_instance_id := Option.none
      parent_instance := Option.none
      add_review_family := Option.none
      version := Option.none
      prep_representations := [] }
  (⟨some v.2.2, some st.nextId⟩,
    ⟨st.nextId + 1, st.instances ++ [inst]⟩)

/-- Normalization of a configured extension
(create_editorial_advanced.py:815-818). -/
def normalize_ext (ext : String) : String :=
  lowerStr (if String.startsWith ext "." then ext else "." ++ ext)

/-- Per-file filter of the first pass
(create_editorial_advanced.py:822-844): content-type compatibility,
extension allow-list, then optional pattern allow-list. -/
def repre_matching_files (reMatch : String → String → Bool)
    (repre_preset : RepPreset) (item : ContentItem) : List String :=
  item.files.filter (fun file =>
    (content_type_mapping item.type).contains repre_preset.content_type &&
    (repre_preset.extensions.map normalize_ext).any
      (fun ext => strEndsWith (lowerStr file) ext) &&
    (repre_preset.patterns.isEmpty ||
      repre_preset.patterns.any (fun p => reMatch p file)))

/-- Python `os.path.splitext` extension start: index of the last dot that
has some non-dot character before it. -/
def splitextDotIdx (s : String) : Option Nat :=
  let cs := s.toList
  (List.range cs.length).foldl
    (fun acc i =>
      if cs.getD i ' ' = '.' ∧ (cs.take i).any (fun c => c ≠ '.') then some i
      else acc)
    Option.none

/-- Python `os.path.splitext(s)[0]` for a plain filename. -/
def splitextBase (s : String) : String :=
  match splitextDotIdx s with
  | Option.none => s
  | some i => String.mk (s.toList.take i)

/-- Python `os.path.splitext(s)[1]` for a plain filename. -/
def splitextExt (s : String) : String :=
  match splitextDotIdx s with
  | Option.none => ""
  | some i => String.mk (s.toList.drop i)

/-- Collapse of a one-element matched file list to a plain string
(create_editorial_advanced.py:860-861). -/
def collapse_files : List String → PyFiles
  | [f] => .str f
  | l => .list l

/-- Prepared representation dictionary for one matching repre preset
(create_editorial_advanced.py:856-878): extension of the first file,
one-element collapse, and the optional non-thumbnail suffix appended to
the name and recorded as output name. -/
def make_prep_repre (repre_preset : RepPreset) (item : ContentItem)
    (matching_files : List String) : PrepRepre :=
  let repre_ext :=
    lowerStr (String.mk ((splitextExt (matching_files.headD "")).toList.dropWhile
      (fun c => c = '.')))
  let withSuffix := item.suffix ≠ "" ∧ ¬strContains item.suffix "thumb"
  { name :=
      if withSuffix then repre_preset.name ++ "_" ++ item.suffix
      else repre_preset.name
    ext := repre_ext
    files := collapse_files matching_files
    content_type := repre_preset.content_type
    repre_preset_name := repre_preset.name
    tags := repre_preset.tags
    custom_tags := repre_preset.custom_tags
    outputName := if withSuffix then some item.suffix else Option.none }

/-- Insertion-ordered dictionary update used for
`grouped_representations`: create the key on first sight, append the new
representations to its list otherwise. -/
def addToGroup (groups : List (String × List PrepRepre)) (key : String)
    (vals : List PrepRepre) : List (String × List PrepRepre) :=
  match groups with
  | [] => [(key, vals)]
  | g :: rest =>
    if g.1 = key then (g.1, g.2 ++ vals) :: rest
    else g :: addToGroup rest key vals

/-- First pass of `_make_product_instance`
(create_editorial_advanced.py:794-880): group the prepared representations
of the preset's content items by resolved product name, in insertion
order. -/
def product_first_pass (reMatch : String → String → Bool)
    (preset : ProductPreset) (items : List ContentItem) :
    List (String × List PrepRepre) :=
  items.foldl
    (fun groups item =>
      if preset.product_name ≠ item.preset_name then groups
      else
        addToGroup groups item.product_name
          (preset.representations.filterMap (fun rp =>
            let mf := repre_matching_files reMatch rp item
            if mf.isEmpty then Option.none
            else some (make_prep_repre rp item mf))))
    []

/-- Python `len(representations) == 1 and representations[0]["content_type"]
== "thumbnail"` (create_editorial_advanced.py:889-893). -/
def only_thumbnail : List PrepRepre → Bool
  | [r] => r.content_type = "thumbnail"
  | _ => false

/-- Second pass of `_make_product_instance` for one product-name group
(create_editorial_advanced.py:882-942): skip empty groups and
thumbnail-only groups, resolve the version by versioning type, compute
reviewability from the originating repre presets, set the product data and
create the instance through the hidden clip creator. -/
def make_product_instance_step (preset : ProductPreset)
    (base : BaseInstanceData) (parenting : ParentingData)
    (st : CreateState) (group : String × List PrepRepre) : CreateState :=
  let representations := group.2
  if representations.isEmpty then st
  else if only_thumbnail representations then st
  else
    let version : Option Nat :=
      if preset.versioning_type = "from_file" then
        extract_version_from_files (representations.map (·.files))
      else if preset.versioning_type = "locked" then some preset.locked
      else Option.none
    let reviewable := representations.any (fun rd =>
      preset.representations.any (fun pr =>
        pr.name = rd.repre_preset_name ∧ pr.tags.contains "review"))
    let v := set_product_data base.attr_folderPath preset.product_type
      Option.none (some group.1)
    let inst : EditorialInstance :=
      { productType := preset.product_type
        productName := v.2.1
        variant := v.1
        label := v.2.2
        instance_id := st.nextId
        parent_instance_id := parenting.instance_id
        parent_instance := parenting.instance_label
        add_review_family :=
          if preset.product_type = "model" ∨ preset.product_type = "workfile"
              ∨ preset.product_type = "camera" then
            Option.none
          else some reviewable
        version := version
        prep_representations := representations }
    ⟨st.nextId + 1, st.instances ++ [inst]⟩

/-- EditorialAdvancedCreator._make_product_instance
(create_editorial_advanced.py:769-942): both passes. -/
def make_product_instance (reMatch : String → String → Bool)
    (preset : ProductPreset) (base : BaseInstanceData)
    (parenting : ParentingData) (items : List ContentItem)
    (st : CreateState) : CreateState :=
  (product_first_pass reMatch preset items).foldl
    (make_product_instance_step preset base parenting) st

/-- Content check of the clip loop under `ignore_clip_no_content`
(create_editorial_advanced.py:598-612): some content item's product name
must contain some enabled preset's product name as a substring. -/
def clip_content_matches (presets : List ProductPreset)
    (items : List ContentItem) : Bool :=
  presets.any (fun preset =>
    items.any (fun item => strContains item.product_name preset.product_name))

/-- Inputs of the per-clip processing that are fixed for the whole run. -/
structure ClipRunContext where
  reMatch : String → String → Bool
  ignore_clip_no_content : Bool
  presets : List ProductPreset
  clip_content : List (String × List ContentItem)

/-- Clip body of `_get_clip_instances` (create_editorial_advanced.py:
592-645): validity filter, content check, shot instance first, then the
product instances of every enabled preset.  `base_of` stands for
`_get_base_instance_data` (shot-name solving against the asset database).
The unguarded Python corner where `ignore_clip_no_content` is disabled and
the content lookup returns `None` (a TypeError in `_make_product_instance`)
is represented by the empty item list; no claim touches it. -/
def process_clip (ctx : ClipRunContext) (base_of : OtioClip → BaseInstanceData)
    (st : CreateState) (otio_clip : OtioClip) : CreateState :=
  if ¬validate_clip_for_processing otio_clip then st
  else
    let content :=
      (((ctx.clip_content.find? (fun kv => kv.1 = otio_clip.name.getD "")).map
        (·.2)).getD [])
    if ctx.ignore_clip_no_content ∧
        (content.isEmpty ∨ ¬clip_content_matches ctx.presets content) then st
    else
      let base := base_of otio_clip
      let shotRes := make_shot_product_instance base st
      ctx.presets.foldl
        (fun s preset =>
          make_product_instance ctx.reMatch preset base shotRes.1 content s)
        shotRes.2

/-- Track-and-clip iteration of `_get_clip_instances` over the already
validated clip sequence of one run. -/
def get_clip_instances (ctx : ClipRunContext)
    (base_of : OtioClip → BaseInstanceData) (clips : List OtioClip)
    (st : CreateState) : CreateState :=
  clips.foldl (process_clip ctx base_of) st

/-! ### Editorial advanced — find_string_differences (C9)

Embedding of `find_string_differences`
(create_editorial_advanced.py:1298-1367).  The function first runs the
external `clique.assemble` and then works on the collected names
(collection head+tail strings plus the remainder files, which for
filenames without digit runs are exactly the input in order); the
embedding takes that collected list as input.  The `zip_longest` prefix
loop discards exhausted names before testing the character set, but the
suffix loop tests `set(chars) - {None}` and then concatenates `chars[0]`
— which is `None` once the first name is exhausted, a TypeError.  The
`Except Unit` error models that exception. -/

/-- Largest length among the character lists. -/
def maxLen (ls : List (List Char)) : Nat :=
  (ls.map List.length).foldr max 0

/-- Common-prefix loop (create_editorial_advanced.py:1325-1333): at each
position take the set of characters of the not-yet-exhausted names; stop
unless it is a singleton.  The fuel is the `zip_longest` length. -/
def zipCommonFront (ls : List (List Char)) : Nat → List Char
  | 0 => []
  | fuel + 1 =>
    match (ls.filterMap List.head?).dedup with
    | [c] => c :: zipCommonFront (ls.map List.tail) fuel
    | _ => []

/-- Common-suffix loop over the reversed names
(create_editorial_advanced.py:1336-1341): the break test discards `None`,
but the appended character is `chars[0]` — the first name's character,
`None` once that name is exhausted, in which case Python raises TypeError
(modelled by the error). -/
def zipCommonBackRev (ls : List (List Char)) : Nat → Except Unit (List Char)
  | 0 => .ok []
  | fuel + 1 =>
    let chars := ls.map List.head?
    if ((chars.filterMap id).dedup).length ≠ 1 then .ok []
    else
      match chars with
      | some c :: _ =>
        (zipCommonBackRev (ls.map List.tail) fuel).map (fun suf => c :: suf)
      | Option.none :: _ => .error ()
      | [] => .ok []

/-- Python slice `processed[p:-s]` when `s > 0`, `processed[p:]` when the
suffix is empty (create_editorial_advanced.py:1350-1353). -/
def pySliceDiff (cs : List Char) (p s : Nat) : List Char :=
  if s = 0 then cs.drop p else (cs.take (cs.length - s)).drop p

/-- Group of `re.match(r".*(v\d{2,4}).*", diff)`: the leading `v` plus the
captured digits at the rightmost admissible position. -/
def versionTokenStr (s : String) : Option (List Char) :=
  (versionScan s.toList).map (fun ds => 'v' :: ds)

/-- Cleanup of one difference string
(create_editorial_advanced.py:1354-1363): remove every occurrence of the
captured version token, then strip whitespace and finally dots and
underscores from both ends. -/
def cleanup_diff (diff : String) : String :=
  let diff :=
    match versionTokenStr diff with
    | Option.none => diff
    | some tok => String.mk (replaceAllList tok [] diff.toList)
  String.mk (stripCharSet ['.', '_'] (stripSpaces diff.toList))

/-- find_string_differences (create_editorial_advanced.py:1298-1367) on the
collected names: strip extensions, compute the common prefix and the
(buggy) common suffix, slice out each name's difference and clean it up.
Keys can collide only when the collected list repeats a name, in which case
the Python dict would keep one entry; the claims use distinct names. -/
def find_string_differences_collected (files_collected : List String) :
    Except Unit (List (String × String)) :=
  if files_collected.isEmpty then .ok []
  else
    let processed := files_collected.map splitextBase
    let lists := processed.map String.toList
    let front := zipCommonFront lists (maxLen lists)
    match (zipCommonBackRev (lists.map List.reverse) (maxLen lists)).map
        List.reverse with
    | .error e => .error e
    | .ok back =>
      .ok ((files_collected.zip processed).map (fun op =>
        (op.1,
          cleanup_diff
            (String.mk (pySliceDiff op.2.toList front.length back.length)))))

/-! ## Theorems -/

/-- C1: for every valid clip processed by the editorial-advanced creator
the derived timing data satisfies `clipIn = rangeInParent.start +
trackStartFrame (+ timelineOffset when non-zero)`, `clipOut =
rangeInParent.endInclusive + trackStartFrame (+ timelineOffset)`,
`clipDuration = trimmedRange.duration`, `sourceIn = trimmedRange.start`,
`sourceOut = sourceIn + clipDuration`, `frameStart = workfileStartFrame
when set else clipIn` and `frameEnd = frameStart + clipDuration - 1`; in
particular for `rangeInParent.start = 100`, `endInclusive = 149` (duration
50), `trackStartFrame = 0`, `timelineOffset = 0`, `workfileStartFrame =
1001` the result is `clipIn = 100`, `clipOut = 149`, `clipDuration = 50`,
`frameStart = 1001`, `frameEnd = 1050`. -/
theorem timing_data_formulas :
    (∀ (rip tr : OtioTimeRange) (off tsf : Int) (wsf : Option Int),
      (get_timing_data rip tr off tsf wsf).clipIn =
          rip.start + tsf + (if off ≠ 0 then off else 0) ∧
      (get_timing_data rip tr off tsf wsf).clipOut =
          rip.endTimeInclusive + tsf + (if off ≠ 0 then off else 0) ∧
      (get_timing_data rip tr off tsf wsf).clipDuration = tr.duration ∧
      (get_timing_data rip tr off tsf wsf).sourceIn = tr.start ∧
      (get_timing_data rip tr off tsf wsf).sourceOut =
          (get_timing_data rip tr off tsf wsf).sourceIn +
            (get_timing_data rip tr off tsf wsf).clipDuration ∧
      (get_timing_data rip tr off tsf wsf).frameStart =
          (wsf.getD ((get_timing_data rip tr off tsf wsf).clipIn)) ∧
      (get_timing_data rip tr off tsf wsf).frameEnd =
          (get_timing_data rip tr off tsf wsf).frameStart +
            (get_timing_data rip tr off tsf wsf).clipDuration - 1) ∧
    get_timing_data ⟨100, 50⟩ ⟨100, 50⟩ 0 0 (some 1001) =
      ⟨1001, 1050, 100, 149, 50, 100, 150⟩ := by
  refine ⟨fun rip tr off tsf wsf => ?_, by decide⟩
  by_cases h : off = 0 <;> cases wsf <;>
    simp [get_timing_data, h, OtioTimeRange.endTimeInclusive] <;> omega

/-- C3: evaluation of `_extract_version_from_files` at the failing input
and at the claim's own example.  A single matched file is stored as a
plain string (`create_editorial_advanced.py:860-861`), so
`for file in repre["files"]` iterates its characters and no version token
can match — the version is `None` even though the filename carries
`v003`.  When the files value is a list, the maximum captured version is
returned, as the claim states. -/
theorem extract_version_from_files_eval :
    extract_version_from_files [PyFiles.str "shot_v003.mov"] = none ∧
    extract_version_from_files
      [PyFiles.list ["shot_v001.mov", "shot_v003.mov"]] = some 3 :=
  ⟨rfl, rfl⟩

/-- C9: evaluation of `find_string_differences` on its collected names.
On `["ab.exr", "xab.exr"]` the suffix loop reaches the position where the
first (shorter) name is exhausted while the remaining name still has the
single character `x`, so the set test passes but `chars[0]` is `None` and
the concatenation raises TypeError — the function does not terminate
normally, contradicting the claim.  The second conjunct shows the normal
path on names of equal length. -/
theorem find_string_differences_eval :
    find_string_differences_collected ["ab.exr", "xab.exr"] = .error () ∧
    find_string_differences_collected ["A_x.mov", "A_y.mov"] =
      .ok [("A_x.mov", "x"), ("A_y.mov", "y")] :=
  ⟨rfl, rfl⟩

/-- C8: a timeline segment with no name, a gap segment, a segment whose
media reference is a generator reference, or a transition segment fails
`_validate_clip_for_processing` — and exactly those fail it — and a
segment failing the filter is skipped by the clip loop and never yields an
instance. -/
theorem invalid_clip_never_instances (otio_clip : OtioClip) :
    (validate_clip_for_processing otio_clip = false ↔
      (otio_clip.name = Option.none ∨ otio_clip.kind = OtioSchemaKind.gap ∨
        otio_clip.mediaReference = MediaReferenceKind.generator ∨
        otio_clip.kind = OtioSchemaKind.transition)) ∧
    (validate_clip_for_processing otio_clip = false →
      ∀ (ctx : ClipRunContext) (base_of : OtioClip → BaseInstanceData)
        (st : CreateState), process_clip ctx base_of st otio_clip = st) := by
  constructor
  · unfold validate_clip_for_processing
    split_ifs with h1 h2 h3 h4 <;> simp_all
  · intro h ctx base_of st
    unfold process_clip
    rw [h]
    simp

/-- C8 witness: a gap segment is dropped by the clip loop. -/
theorem invalid_clip_never_instances_witness :
    process_clip
      ⟨fun _ _ => true, true, [], []⟩ (fun _ => ⟨"/seq/sh010"⟩) ⟨0, []⟩
      ⟨some "gap", OtioSchemaKind.gap, MediaReferenceKind.external⟩ =
      ⟨0, []⟩ :=
  (invalid_clip_never_instances
    ⟨some "gap", OtioSchemaKind.gap, MediaReferenceKind.external⟩).2 rfl
    ⟨fun _ _ => true, true, [], []⟩ (fun _ => ⟨"/seq/sh010"⟩) ⟨0, []⟩

/-- C6: a product-name group whose representation list is empty after the
first-pass filtering creates no instance, a group whose only
representation has content type `thumbnail` creates no instance, and every
other group creates exactly one instance carrying that (non-empty)
representation list. -/
theorem product_group_filter (preset : ProductPreset)
    (base : BaseInstanceData) (parenting : ParentingData) (st : CreateState)
    (pname : String) (reps : List PrepRepre) :
    (reps = [] →
      make_product_instance_step preset base parenting st (pname, reps) = st) ∧
    (only_thumbnail reps = true →
      make_product_instance_step preset base parenting st (pname, reps) = st) ∧
    (reps ≠ [] → only_thumbnail reps = false →
      ∃ inst,
        (make_product_instance_step preset base parenting st
          (pname, reps)).instances = st.instances ++ [inst] ∧
        inst.prep_representations = reps ∧
        inst.prep_representations ≠ []) := by
  refine ⟨fun h => ?_, fun h => ?_, fun h1 h2 => ?_⟩
  · simp [make_product_instance_step, h]
  · have hne : ¬reps.isEmpty = true := by
      cases reps with
      | nil => simp [only_thumbnail] at h
      | cons a l => simp
    simp [make_product_instance_step, hne, h]
  · have hne : ¬reps.isEmpty = true := by simpa using h1
    simp only [make_product_instance_step, hne, h2]
    simp only [Bool.false_eq_true, if_false]
    exact ⟨_, rfl, rfl, h1⟩

/-- C6 witness: a group with one non-thumbnail representation creates one
instance carrying it. -/
theorem product_group_filter_witness :
    ∃ inst,
      (make_product_instance_step
        ⟨"plate", "plateMain", "incremental", 0,
          [⟨"exr", "image_sequence", ["exr"], [], ["review"], []⟩]⟩
        ⟨"/seq/sh010"⟩ ⟨some "/seq/sh010 shotMain", some 3⟩ ⟨7, []⟩
        ("plateMain",
          [⟨"exr", "exr", PyFiles.list ["a.exr", "b.exr"], "image_sequence",
            "exr", ["review"], [], Option.none⟩])).instances =
        ([] : List EditorialInstance) ++ [inst] ∧
      inst.prep_representations =
        [⟨"exr", "exr", PyFiles.list ["a.exr", "b.exr"], "image_sequence",
          "exr", ["review"], [], Option.none⟩] ∧
      inst.prep_representations ≠ [] :=
  (product_group_filter
    ⟨"plate", "plateMain", "incremental", 0,
      [⟨"exr", "image_sequence", ["exr"], [], ["review"], []⟩]⟩
    ⟨"/seq/sh010"⟩ ⟨some "/seq/sh010 shotMain", some 3⟩ ⟨7, []⟩
    "plateMain"
    [⟨"exr", "exr", PyFiles.list ["a.exr", "b.exr"], "image_sequence",
      "exr", ["review"], [], Option.none⟩]).2.2 (by simp) rfl

/-- C4 counterexample: a non-empty Representation Tags cell without the
delimiter is kept as the single raw tag — neither trimmed nor lowercased —
so the claimed split-then-normalize description fails at the cell
`"FOO "`. -/
theorem tags_from_cell_counterexample :
    tags_from_cell ["web"] ";" (some "FOO ") = ["FOO "] ∧
    tags_from_cell_claimed ["web"] ";" (some "FOO ") = ["foo"] ∧
    tags_from_cell ["web"] ";" (some "FOO ") ≠
      tags_from_cell_claimed ["web"] ";" (some "FOO ") := by
  refine ⟨rfl, rfl, by decide⟩

/-- C4 (amended): an empty or missing Representation Tags cell yields the
configured default tags; a non-empty cell containing the configured
(non-empty) delimiter is split on it with every piece whitespace-trimmed
and lowercased; a non-empty cell without the delimiter becomes the single
raw tag, unmodified. -/
theorem tags_from_cell_behaviour (default_tags : List String)
    (tags_delimiter : String) (s : String) (_hdelim : tags_delimiter ≠ "") :
    tags_from_cell default_tags tags_delimiter Option.none = default_tags ∧
    tags_from_cell default_tags tags_delimiter (some "") = default_tags ∧
    (s ≠ "" → strContains s tags_delimiter = true →
      tags_from_cell default_tags tags_delimiter (some s) =
        (strSplitOn s tags_delimiter).map (fun t => lowerStr (strStrip t))) ∧
    (s ≠ "" → strContains s tags_delimiter = false →
      tags_from_cell default_tags tags_delimiter (some s) = [s]) := by
  refine ⟨rfl, rfl, fun h1 h2 => ?_, fun h1 h2 => ?_⟩ <;>
    simp [tags_from_cell, h1, h2]

/-- C4 witness: the amended behaviour at the cell `"A ;b"` with
delimiter `";"`. -/
theorem tags_from_cell_behaviour_witness :
    tags_from_cell ["web"] ";" (some "A ;b") = ["a", "b"] :=
  ((tags_from_cell_behaviour ["web"] ";" "A ;b" (by decide)).2.2.1
    (by decide) (by decide)).trans rfl

/-- Paths with at least two occurrences exist exactly when
`duplicated_paths` is non-empty. -/
theorem duplicated_paths_eq_nil_iff {l : List String} :
    duplicated_paths l = [] ↔ ∀ x, l.count x ≤ 1 := by
  unfold duplicated_paths
  rw [List.dedup_eq_nil, List.filter_eq_nil_iff]
  constructor
  · intro h x
    by_contra hx
    push_neg at hx
    have hmem : x ∈ l := List.count_pos_iff.mp (by omega)
    have := h x hmem
    simp only [decide_eq_true_eq] at this
    omega
  · intro h x _
    simp only [decide_eq_true_eq]
    have := h x
    omega

/-- Unfolding equation of the per-product duplicate loop at a cons cell,
with the two maps fused. -/
theorem check_duplicates_cons (resolve : String → String)
    (p : CsvProductItem) (rest : List CsvProductItem) :
    resolve_and_check_duplicates resolve (p :: rest) =
      (if duplicated_paths (p.repre_items.map
          (fun r => (resolve_repre_item resolve r).filepath)) ≠ [] then
        .error (.duplicateFiles (duplicated_paths (p.repre_items.map
          (fun r => (resolve_repre_item resolve r).filepath))))
      else
        (resolve_and_check_duplicates resolve rest).map
          (fun l =>
            { p with
              repre_items := p.repre_items.map (resolve_repre_item resolve) }
            :: l)) := by
  simp only [resolve_and_check_duplicates]
  rw [List.map_map]
  rfl

/-- Main duplicate lemma: some product with a twice-resolved filepath makes
the per-product loop of `_get_data_from_csv` raise `CreatorError` with the
duplicated paths of the first offending product. -/
theorem check_duplicates_errors (resolve : String → String)
    (products : List CsvProductItem)
    (h : ∃ p ∈ products, ∃ path : String,
      2 ≤ (p.repre_items.map
        (fun r => (resolve_repre_item resolve r).filepath)).count path) :
    ∃ dups : List String, dups ≠ [] ∧
      (∃ q ∈ products,
        dups = duplicated_paths (q.repre_items.map
          (fun r => (resolve_repre_item resolve r).filepath))) ∧
      resolve_and_check_duplicates resolve products =
        .error (.duplicateFiles dups) := by
  induction products with
  | nil => simp at h
  | cons p rest ih =>
    by_cases hD :
        duplicated_paths (p.repre_items.map
          (fun r => (resolve_repre_item resolve r).filepath)) = []
    · obtain ⟨q, hq, path, hcount⟩ := h
      have hqrest : q ∈ rest := by
        rcases List.mem_cons.mp hq with hqp | hqr
        · subst hqp
          have := (duplicated_paths_eq_nil_iff.mp hD) path
          omega
        · exact hqr
      obtain ⟨dups, hne, ⟨q2, hq2, hdq2⟩, herr⟩ :=
        ih ⟨q, hqrest, path, hcount⟩
      refine ⟨dups, hne, ⟨q2, List.mem_cons_of_mem _ hq2, hdq2⟩, ?_⟩
      rw [check_duplicates_cons, if_neg (by simp [hD]), herr]
      rfl
    · refine ⟨_, hD, ⟨p, List.mem_cons_self p rest, rfl⟩, ?_⟩
      rw [check_duplicates_cons, if_pos hD]

/-- C2: whenever two representation rows of one product resolve to the
identical filepath, the CSV ingestion raises `CreatorError` carrying the
duplicated paths of the offending product, `_create_instances_from_csv_data`
returns that error rather than any instances, and nothing at all is stored
by `_process_csv_file` for the whole batch. -/
theorem csv_duplicate_aborts (resolve : String → String)
    (build : CsvProductItem → CsvInstance) (csv_instance : CsvInstance)
    (products : List CsvProductItem)
    (h : ∃ p ∈ products, ∃ path : String,
      2 ≤ (p.repre_items.map
        (fun r => (resolve_repre_item resolve r).filepath)).count path) :
    ∃ dups : List String, dups ≠ [] ∧
      (∃ q ∈ products,
        dups = duplicated_paths (q.repre_items.map
          (fun r => (resolve_repre_item resolve r).filepath))) ∧
      create_instances_from_csv_data resolve build products =
        .error (.duplicateFiles dups) ∧
      process_csv_file_stored resolve build csv_instance products = [] := by
  obtain ⟨dups, hne, hq, herr⟩ := check_duplicates_errors resolve products h
  refine ⟨dups, hne, hq, ?_, ?_⟩
  · unfold create_instances_from_csv_data
    rw [herr]
    rfl
  · unfold process_csv_file_stored create_instances_from_csv_data
    rw [herr]
    rfl

/-- C2 witness: two rows of one product with the same filepath store
nothing. -/
theorem csv_duplicate_aborts_witness :
    process_csv_file_stored id
      (fun p => ⟨p.product_type, p.folder_path, p.task_name, p.version,
        p.repre_items.length⟩)
      ⟨"csv_ingest_file", "", "", Option.none, 0⟩
      [⟨"/seq/sh010", "comp", Option.none, "Main", "plate",
        [⟨"exr", "a.mov", Option.none, []⟩,
          ⟨"mov", "a.mov", Option.none, []⟩]⟩] = [] := by
  obtain ⟨_, _, _, _, hstore⟩ :=
    csv_duplicate_aborts id
      (fun p => ⟨p.product_type, p.folder_path, p.task_name, p.version,
        p.repre_items.length⟩)
      ⟨"csv_ingest_file", "", "", Option.none, 0⟩
      [⟨"/seq/sh010", "comp", Option.none, "Main", "plate",
        [⟨"exr", "a.mov", Option.none, []⟩,
          ⟨"mov", "a.mov", Option.none, []⟩]⟩]
      ⟨⟨"/seq/sh010", "comp", Option.none, "Main", "plate",
        [⟨"exr", "a.mov", Option.none, []⟩,
          ⟨"mov", "a.mov", Option.none, []⟩]⟩,
        List.mem_singleton.mpr rfl, "a.mov", by decide⟩
  exact hstore

/-- C5: for a non-required `number`/`decimal` column whose declared default
is the literal `0` or `"0"`, an empty cell validates to `None`: the zero
default is suppressed, no coercion happens, and the validation regex is
never consulted (the conclusion holds for every `prims`, in particular for
a regex rejecting everything). -/
theorem numeric_zero_default_yields_none (prims : PyPrims)
    (columns : List ColumnConfig) (column_name : String)
    (row : List (String × String)) (col : ColumnConfig)
    (hfind : columns.find? (fun c => c.name = column_name) = some col)
    (htype : col.type = "number" ∨ col.type = "decimal")
    (hdefault : col.default = PyVal.int 0 ∨ col.default = PyVal.str "0")
    (hempty : rowGet row column_name = some "")
    (hreq : col.required_column = false) :
    get_row_value_with_validation prims columns column_name row =
      .ok PyVal.none := by
  rcases htype with ht | ht <;> rcases hdefault with hd | hd <;>
    simp [get_row_value_with_validation, hfind, hempty, hreq, ht, hd,
      pyIsZeroDefault,
      show ("number" : String) ≠ "bool" from by decide,
      show ("decimal" : String) ≠ "bool" from by decide]

/-- C5 witness: an empty non-required number cell with default `0`
validates to `None` even under a regex that rejects every string. -/
theorem numeric_zero_default_yields_none_witness :
    get_row_value_with_validation
      ⟨fun _ _ => false, fun _ => Option.none, fun _ => ""⟩
      [⟨"Frame Start", "number", PyVal.int 0, false, "^[0-9]+$"⟩]
      "Frame Start" [("Frame Start", "")] = .ok PyVal.none :=
  numeric_zero_default_yields_none
    ⟨fun _ _ => false, fun _ => Option.none, fun _ => ""⟩
    [⟨"Frame Start", "number", PyVal.int 0, false, "^[0-9]+$"⟩]
    "Frame Start" [("Frame Start", "")]
    ⟨"Frame Start", "number", PyVal.int 0, false, "^[0-9]+$"⟩
    rfl (Or.inl rfl) (Or.inl rfl) rfl rfl

/-- Reordering of a boolean test between its negative and positive
phrasing. -/
theorem if_bool_flip {α : Type} (X : Bool) (a b : α) :
    (if X = false then a else b) = (if X = true then b else a) := by
  cases X <;> simp

/-- C10: a `bool` column always validates to a boolean — true exactly when
the effective value (the cell, or the declared default for an empty
non-required cell) is the string `"true"` or `"True"` — it never yields
`None`, and the validation regex is always tested against `"True"` or
`"False"`. -/
theorem bool_column_always_boolean (prims : PyPrims)
    (columns : List ColumnConfig) (column_name : String)
    (row : List (String × String)) (col : ColumnConfig)
    (hfind : columns.find? (fun c => c.name = column_name) = some col)
    (htype : col.type = "bool") :
    get_row_value_with_validation prims columns column_name row =
      (if rowGet row column_name = some "" ∧ col.required_column then
        .error (.requiredMissing column_name)
      else
        let effective : PyVal :=
          if rowGet row column_name = some "" then col.default
          else
            match rowGet row column_name with
            | Option.none => PyVal.none
            | some s => PyVal.str s
        let b := pyInTrueTrue effective
        if prims.reMatch col.validation_pattern
            (if b then "True" else "False") then
          .ok (.bool b)
        else
          .error (.validationFailed column_name
            (if b then "True" else "False"))) := by
  rcases hrow : rowGet row column_name with _ | s
  · simp [get_row_value_with_validation, hfind, hrow, htype, pyStr,
      pyInTrueTrue,
      show ("bool" : String) ≠ "number" from by decide,
      show ("bool" : String) ≠ "decimal" from by decide]
    exact if_bool_flip ..
  · by_cases hs : s = ""
    · subst hs
      by_cases hreqb : col.required_column = true
      · simp [get_row_value_with_validation, hfind, hrow, hreqb]
      · simp only [Bool.not_eq_true] at hreqb
        simp [get_row_value_with_validation, hfind, hrow, htype, hreqb,
          pyStr,
          show ("bool" : String) ≠ "number" from by decide,
          show ("bool" : String) ≠ "decimal" from by decide]
        cases hb : pyInTrueTrue col.default <;> simp [hb] <;>
          exact if_bool_flip ..
    · simp [get_row_value_with_validation, hfind, hrow, htype, hs, pyStr,
        show ("bool" : String) ≠ "number" from by decide,
        show ("bool" : String) ≠ "decimal" from by decide]
      cases hb : pyInTrueTrue (PyVal.str s) <;> simp [hb] <;>
        exact if_bool_flip ..

/-- C10 witness: a `bool` column with cell `"true"` validates to the
boolean `True` under a regex accepting everything. -/
theorem bool_column_always_boolean_witness :
    get_row_value_with_validation
      ⟨fun _ _ => true, fun _ => Option.none, fun _ => ""⟩
      [⟨"Slate Exists", "bool", PyVal.str "False", false, "(True|False)"⟩]
      "Slate Exists" [("Slate Exists", "true")] = .ok (PyVal.bool true) :=
  (bool_column_always_boolean
    ⟨fun _ _ => true, fun _ => Option.none, fun _ => ""⟩
    [⟨"Slate Exists", "bool", PyVal.str "False", false, "(True|False)"⟩]
    "Slate Exists" [("Slate Exists", "true")]
    ⟨"Slate Exists", "bool", PyVal.str "False", false, "(True|False)"⟩
    rfl rfl).trans rfl

/-- A group step appends at most one instance, and whatever it appends
carries the parenting data it was given. -/
theorem product_step_parent (preset : ProductPreset) (base : BaseInstanceData)
    (parenting : ParentingData) (st : CreateState)
    (g : String × List PrepRepre) :
    ∃ new, (make_product_instance_step preset base parenting st g).instances
        = st.instances ++ new ∧
      ∀ i ∈ new, i.parent_instance_id = parenting.instance_id ∧
        i.parent_instance = parenting.instance_label := by
  unfold make_product_instance_step
  by_cases h1 : g.2.isEmpty = true
  · rw [if_pos h1]
    exact ⟨[], by simp, by simp⟩
  · rw [if_neg h1]
    by_cases h2 : only_thumbnail g.2 = true
    · rw [if_pos h2]
      exact ⟨[], by simp, by simp⟩
    · rw [if_neg h2]
      refine ⟨[_], rfl, ?_⟩
      intro i hi
      rw [List.mem_singleton] at hi
      subst hi
      exact ⟨rfl, rfl⟩

/-- Folding a state transformer that only appends instances satisfying `P`
again only appends instances satisfying `P`. -/
theorem foldl_parent {α : Type} (f : CreateState → α → CreateState)
    (P : EditorialInstance → Prop)
    (hf : ∀ st a, ∃ new, (f st a).instances = st.instances ++ new ∧
      ∀ i ∈ new, P i) :
    ∀ (l : List α) (st : CreateState),
      ∃ new, (l.foldl f st).instances = st.instances ++ new ∧
        ∀ i ∈ new, P i := by
  intro l
  induction l with
  | nil => exact fun st => ⟨[], by simp, by simp⟩
  | cons a l ih =>
    intro st
    obtain ⟨n1, h1, hp1⟩ := hf st a
    obtain ⟨n2, h2, hp2⟩ := ih (f st a)
    refine ⟨n1 ++ n2, ?_, ?_⟩
    · rw [List.foldl_cons, h2, h1, List.append_assoc]
    · intro i hi
      rcases List.mem_append.mp hi with h | h
      · exact hp1 i h
      · exact hp2 i h

/-- Every instance appended by `_make_product_instance` carries the
parenting data it was given. -/
theorem make_product_instance_parent (reMatch : String → String → Bool)
    (preset : ProductPreset) (base : BaseInstanceData)
    (parenting : ParentingData) (items : List ContentItem)
    (st : CreateState) :
    ∃ new, (make_product_instance reMatch preset base parenting items
        st).instances = st.instances ++ new ∧
      ∀ i ∈ new, i.parent_instance_id = parenting.instance_id ∧
        i.parent_instance = parenting.instance_label := by
  unfold make_product_instance
  exact foldl_parent _ _ (product_step_parent preset base parenting) _ st

/-- C7: a processed clip creates its shot instance first — with a fresh
instance id and no parent — and every product instance created for that
clip afterwards carries `parent_instance_id` equal to that shot instance's
id and `creator_attributes.parent_instance` equal to the shot's label. -/
theorem clip_products_linked_to_shot (ctx : ClipRunContext)
    (base_of : OtioClip → BaseInstanceData) (st : CreateState)
    (otio_clip : OtioClip) (items : List ContentItem)
    (hvalid : validate_clip_for_processing otio_clip = true)
    (hlookup : ((ctx.clip_content.find?
        (fun kv => kv.1 = otio_clip.name.getD "")).map (·.2)).getD []
      = items)
    (hnonempty : items ≠ [])
    (hmatch : clip_content_matches ctx.presets items = true) :
    ∃ shot rest,
      (process_clip ctx base_of st otio_clip).instances =
        st.instances ++ shot :: rest ∧
      shot.productType = "shot" ∧
      shot.productName = "shotMain" ∧
      shot.instance_id = st.nextId ∧
      shot.parent_instance_id = Option.none ∧
      (∀ p ∈ rest, p.parent_instance_id = some shot.instance_id ∧
        p.parent_instance = some shot.label) := by
  obtain ⟨new, hnew, hp⟩ :=
    foldl_parent
      (fun s preset =>
        make_product_instance ctx.reMatch preset (base_of otio_clip)
          (make_shot_product_instance (base_of otio_clip) st).1 items s)
      (fun i =>
        i.parent_instance_id =
          ((make_shot_product_instance (base_of otio_clip) st).1).instance_id ∧
        i.parent_instance =
          ((make_shot_product_instance (base_of otio_clip) st).1).instance_label)
      (fun s preset =>
        make_product_instance_parent ctx.reMatch preset (base_of otio_clip)
          _ items s)
      ctx.presets
      (make_shot_product_instance (base_of otio_clip) st).2
  have hempty : items.isEmpty = false := by
    cases items with
    | nil => exact absurd rfl hnonempty
    | cons a l => rfl
  refine
    ⟨⟨"shot",
      (set_product_data (base_of otio_clip).attr_folderPath "shot"
        Option.none (some "shotMain")).2.1,
      (set_product_data (base_of otio_clip).attr_folderPath "shot"
        Option.none (some "shotMain")).1,
      (set_product_data (base_of otio_clip).attr_folderPath "shot"
        Option.none (some "shotMain")).2.2,
      st.nextId, Option.none, Option.none, Option.none, Option.none, []⟩,
      new, ?_, rfl, rfl, rfl, rfl, fun p hmem => hp p hmem⟩
  simp only [process_clip, hlookup, hvalid, hempty, hmatch]
  simp only [not_true, Bool.false_eq_true, false_or, and_false, or_self,
    if_false, ite_false, if_neg, not_false_iff]
  rw [hnew]
  simp [make_shot_product_instance]

/-- C7 witness: one clip with one enabled preset and matching content
creates the shot instance first and links the products to it. -/
theorem clip_products_linked_to_shot_witness :
    ∃ shot rest,
      (process_clip
        ⟨fun _ _ => true, true,
          [⟨"plate", "plateMain", "incremental", 0,
            [⟨"exr", "image_sequence", ["exr"], [], ["review"], []⟩]⟩],
          [("sh010",
            [⟨"plateMain", "plateMain", "/", "collection", "",
              ["sh010_plate.1001.exr", "sh010_plate.1002.exr"]⟩])]⟩
        (fun _ => ⟨"/seq/sh010"⟩) ⟨0, []⟩
        ⟨some "sh010", OtioSchemaKind.clip,
          MediaReferenceKind.external⟩).instances =
        ([] : List EditorialInstance) ++ shot :: rest ∧
      shot.productType = "shot" ∧
      shot.productName = "shotMain" ∧
      shot.instance_id = 0 ∧
      shot.parent_instance_id = Option.none ∧
      (∀ p ∈ rest, p.parent_instance_id = some shot.instance_id ∧
        p.parent_instance = some shot.label) :=
  clip_products_linked_to_shot
    ⟨fun _ _ => true, true,
      [⟨"plate", "plateMain", "incremental", 0,
        [⟨"exr", "image_sequence", ["exr"], [], ["review"], []⟩]⟩],
      [("sh010",
        [⟨"plateMain", "plateMain", "/", "collection", "",
          ["sh010_plate.1001.exr", "sh010_plate.1002.exr"]⟩])]⟩
    (fun _ => ⟨"/seq/sh010"⟩) ⟨0, []⟩
    ⟨some "sh010", OtioSchemaKind.clip, MediaReferenceKind.external⟩
    [⟨"plateMain", "plateMain", "/", "collection", "",
      ["sh010_plate.1001.exr", "sh010_plate.1002.exr"]⟩]
    rfl rfl (List.cons_ne_nil _ _) rfl

end AyonTraypublisher
